import Mathlib

/-!
Verification of the form-state and validation-timing model of the ReactForms
repository.  The per-field operations are embedded from the `useInput` hook in
`src/docu/07_custom_hook.md` and from `src/components/StateLogin.jsx`; the
submit-time behaviour of `src/components/Login.jsx` is embedded directly.  The
aggregate `FormController` of the specification has no counterpart under `src/`
and is modelled from the spec where noted.
-/

namespace ReactForms

/-- Validation outcome of a single rule: a boolean invalidity flag together with
the human-readable message shown when the flag is set.  The source keeps these
as a derived boolean plus a hard-coded message string next to each input. -/
structure ValidationResult where
  isInvalid : Bool
  message : String
deriving Repr, DecidableEq

/-- Modelled from the spec: a `ValidationRule` is a pure function from the
current field value to a `ValidationResult` (spec section 3). -/
def ValidationRule : Type := String → ValidationResult

/-- Embeds the JavaScript `value.includes("@")` membership test used by
`handleSubmit` in `src/components/Login.jsx`. -/
def includes (s : String) (c : Char) : Bool :=
  s.data.contains c

/-- Modelled from the spec: `src/util/validation.js` is imported by
`StateLogin.jsx` but absent from the source tree; the spec (section 1)
describes the email check as a one-line `includes("@")`. -/
def isEmail (value : String) : Bool :=
  includes value '@'

/-- Modelled from the spec: missing `validation.js`; the value is non-empty
once surrounding whitespace is discarded. -/
def isNotEmpty (value : String) : Bool :=
  value.data.any (fun c => !c.isWhitespace)

/-- Modelled from the spec: missing `validation.js`; the length check applied
to passwords (spec section 1 calls it a length check; `StateLogin.jsx` applies
it with a minimum of 6). -/
def hasMinLength (value : String) (minLength : Nat) : Bool :=
  decide (minLength ≤ value.length)

/-- Per-field state of the `useInput` hook in `src/docu/07_custom_hook.md`:
the entered value and the `didEdit` flag, called `touched` by the spec. -/
structure FieldState where
  value : String
  touched : Bool
deriving Repr, DecidableEq

/-- `handleInputChange` of `useInput`: store the new value and clear the
touched flag (`setEnteredValue(event.target.value); setDidEdit(false)`). -/
def FieldState.onChange (_f : FieldState) (newValue : String) : FieldState :=
  { value := newValue, touched := false }

/-- `handleInputBlur` of `useInput`: mark the field as touched
(`setDidEdit(true)`), leaving the value alone. -/
def FieldState.onBlur (f : FieldState) : FieldState :=
  { f with touched := true }

/-- The derived invalidity query.  `StateLogin.jsx` computes concrete instances
such as `didEdit.email && !isEmail(...) && !isNotEmpty(...)`; the spec
(section 4.1) generalises the pattern to `touched && rule(value).isInvalid`. -/
def FieldState.isInvalid (f : FieldState) (rule : ValidationRule) : Bool :=
  f.touched && (rule f.value).isInvalid

/-- `emailIsInvalid` exactly as computed in `src/components/StateLogin.jsx`. -/
def emailIsInvalidState (didEdit : Bool) (email : String) : Bool :=
  didEdit && !(isEmail email) && !(isNotEmpty email)

/-- `passwordIsInvalid` exactly as computed in `src/components/StateLogin.jsx`. -/
def passwordIsInvalidState (didEdit : Bool) (password : String) : Bool :=
  didEdit && !(hasMinLength password 6)

/-- The rule whose invalidity test matches the `emailIsInvalid` expression of
`StateLogin.jsx`, with the message string rendered there. -/
def stateLoginEmailRule : ValidationRule := fun v =>
  { isInvalid := !(isEmail v) && !(isNotEmpty v)
    message := "Please Enter a Valid Email" }

/-- Outcome of one call to `handleSubmit` in `src/components/Login.jsx`: the
new `emailIsInvalid` flag and whether execution proceeded past the early
return that blocks invalid submissions. -/
structure LoginSubmitOutcome where
  emailIsInvalid : Bool
  proceeded : Bool
deriving Repr, DecidableEq

/-- `handleSubmit` from `src/components/Login.jsx`.  Both ref values are read;
only the email is validated, with `enteredEmail.includes("@")`.  On failure the
error flag is set and the handler returns early; otherwise it clears the flag
and completes. -/
def handleSubmit (enteredEmail : String) (enteredPassword : String) :
    LoginSubmitOutcome :=
  let _pw := enteredPassword
  let emailIsValid := includes enteredEmail '@'
  if !emailIsValid then
    { emailIsInvalid := true, proceeded := false }
  else
    { emailIsInvalid := false, proceeded := true }

/-- Modelled from the spec: one registered field of the `FormController`
(spec section 3) — identifier, registered initial value, validation rule, and
the live `FieldState`. -/
structure FieldEntry where
  id : String
  initialValue : String
  rule : ValidationRule
  state : FieldState

/-- Modelled from the spec: the `FormController` aggregates the registered
fields in insertion order (spec section 3). -/
structure FormController where
  fields : List FieldEntry

/-- Modelled from the spec: the error taxonomy of section 7. -/
inductive FormError where
  | duplicateFieldError
  | unknownFieldError
deriving Repr, DecidableEq

/-- Modelled from the spec: `submit()` returns either the full id-to-value
mapping or the id-to-message mapping of the currently invalid fields
(spec section 4.2). -/
inductive SubmitResult where
  | success (values : List (String × String))
  | failure (messages : List (String × String))
deriving Repr, DecidableEq

/-- Find the entry registered under an identifier. -/
def FormController.lookup (c : FormController) (id : String) : Option FieldEntry :=
  c.fields.find? (fun e => e.id == id)

/-- Modelled from the spec: `registerField(id, initialValue, rule)` adds a
field, or fails with `DuplicateFieldError` when the id is already present
(spec section 4.2); the error case hands back the unchanged controller. -/
def FormController.registerField (c : FormController) (id : String)
    (initialValue : String) (rule : ValidationRule) :
    FormController × Option FormError :=
  match c.lookup id with
  | some _ => (c, some FormError.duplicateFieldError)
  | none =>
      ({ fields := c.fields ++
          [{ id := id, initialValue := initialValue, rule := rule,
             state := { value := initialValue, touched := false } }] }, none)

/-- Modelled from the spec: `handleChange(id, newValue)` delegates to the
field's `onChange`, failing with `UnknownFieldError` when the id is absent
(spec section 4.2). -/
def FormController.handleChange (c : FormController) (id : String)
    (newValue : String) : FormController × Option FormError :=
  if c.fields.any (fun e => e.id == id) then
    ({ fields := c.fields.map (fun e =>
        if e.id == id then { e with state := e.state.onChange newValue } else e) },
      none)
  else
    (c, some FormError.unknownFieldError)

/-- Modelled from the spec: `handleBlur(id)` delegates to the field's
`onBlur`, with the same error condition (spec section 4.2). -/
def FormController.handleBlur (c : FormController) (id : String) :
    FormController × Option FormError :=
  if c.fields.any (fun e => e.id == id) then
    ({ fields := c.fields.map (fun e =>
        if e.id == id then { e with state := e.state.onBlur } else e) },
      none)
  else
    (c, some FormError.unknownFieldError)

/-- The fields whose rule rejects their current value, touched or not. -/
def FormController.invalidEntries (c : FormController) : List FieldEntry :=
  c.fields.filter (fun e => (e.rule e.state.value).isInvalid)

/-- Set the touched flag of an entry, leaving id, initial value, rule and
value untouched. -/
def FieldEntry.touchEntry (e : FieldEntry) : FieldEntry :=
  { e with state := { value := e.state.value, touched := true } }

/-- Modelled from the spec: `submit()` evaluates every field's rule against
its current value unconditionally, returning the full value mapping on
success; on failure it returns the message mapping of the invalid fields and
marks every field touched so the errors become visible (spec section 4.2). -/
def FormController.submit (c : FormController) : FormController × SubmitResult :=
  if c.invalidEntries.isEmpty then
    (c, SubmitResult.success (c.fields.map (fun e => (e.id, e.state.value))))
  else
    ({ fields := c.fields.map FieldEntry.touchEntry },
      SubmitResult.failure
        (c.invalidEntries.map (fun e => (e.id, (e.rule e.state.value).message))))

/-- Modelled from the spec: `reset()` restores all fields to their registered
initial values with `touched = false` (spec section 4.2). -/
def FormController.reset (c : FormController) : FormController :=
  { fields := c.fields.map (fun e =>
      { e with state := { value := e.initialValue, touched := false } }) }

/-- Whether the error of a registered field is currently visible, through the
per-field `isInvalid` query. -/
def FormController.isInvalidField (c : FormController) (id : String) : Bool :=
  match c.lookup id with
  | some e => e.state.isInvalid e.rule
  | none => false

/-- The message currently shown for a registered field, when its error is
visible. -/
def FormController.messageFor (c : FormController) (id : String) : Option String :=
  match c.lookup id with
  | some e =>
      if e.state.isInvalid e.rule then some (e.rule e.state.value).message
      else none
  | none => none

/-- A change or blur event addressed to one field of the controller. -/
inductive FormEvent where
  | change (id : String) (newValue : String)
  | blur (id : String)

/-- Apply one event, discarding the possible unknown-field error. -/
def FormController.applyEvent (c : FormController) (e : FormEvent) :
    FormController :=
  match e with
  | FormEvent.change id v => (c.handleChange id v).1
  | FormEvent.blur id => (c.handleBlur id).1

/-- Apply a sequence of change and blur events in order. -/
def FormController.applyEvents (c : FormController) (es : List FormEvent) :
    FormController :=
  es.foldl FormController.applyEvent c

/-- Construct a controller by registering the listed fields in order,
keeping the controller of each registration step. -/
def mkController (l : List (String × String × ValidationRule)) :
    FormController :=
  l.foldl (fun c t => (c.registerField t.1 t.2.1 t.2.2).1) { fields := [] }

/-- The registration data of an entry: identifier, initial value and rule —
everything except the live state. -/
def FieldEntry.skeleton (e : FieldEntry) : String × String × ValidationRule :=
  (e.id, e.initialValue, e.rule)

/-- A change or blur event addressed to a single field. -/
inductive FieldEvent where
  | change (newValue : String)
  | blur

/-- Apply one event to a field through the `useInput` handlers. -/
def FieldState.applyFieldEvent (f : FieldState) (e : FieldEvent) : FieldState :=
  match e with
  | FieldEvent.change v => f.onChange v
  | FieldEvent.blur => f.onBlur

/-- A field state together with the ghost record of the value it held at the
most recent blur, updated alongside the `useInput` handlers. -/
structure TrackedField where
  fs : FieldState
  lastBlurValue : Option String

/-- Step the tracked field by one event: the field state moves through
`onChange` or `onBlur`, and a blur snapshots the current value. -/
def TrackedField.step (t : TrackedField) (e : FieldEvent) : TrackedField :=
  match e with
  | FieldEvent.change v => { fs := t.fs.onChange v, lastBlurValue := t.lastBlurValue }
  | FieldEvent.blur => { fs := t.fs.onBlur, lastBlurValue := some t.fs.value }

/-- The per-field invariant: when the field is touched, its value is exactly
the value it held at the most recent blur. -/
def TrackedField.Inv (t : TrackedField) : Prop :=
  t.fs.touched = true → t.lastBlurValue = some t.fs.value

/-- The email rule of the submit-time scenario: valid when the value contains
the at-sign, with the message rendered by `src/components/Login.jsx`. -/
def emailRule : ValidationRule := fun v =>
  { isInvalid := !(includes v '@')
    message := "Please enter a valid email address" }

/-- The password rule of `StateLogin.jsx`: a minimum length of 6. -/
def pwRule : ValidationRule := fun v =>
  { isInvalid := !(hasMinLength v 6)
    message := "Please Enter a Valid Password" }

/-- A password field holding an invalid three-character value that has never
been blurred. -/
def pwEntry : FieldEntry :=
  { id := "password", initialValue := "", rule := pwRule
    state := { value := "abc", touched := false } }

/-- A controller holding only `pwEntry`. -/
def pwCtrl : FormController := { fields := [pwEntry] }

/-- Scenario controller after registering the email field with initial value
`""` and the contains-at-sign rule. -/
def scenarioC0 : FormController :=
  (FormController.registerField { fields := [] } "email" "" emailRule).1

/-- Scenario controller after the first blur. -/
def scenarioC1 : FormController := (scenarioC0.handleBlur "email").1

/-- Scenario controller after typing a valid address. -/
def scenarioC2 : FormController := (scenarioC1.handleChange "email" "a@b.com").1

/-- Scenario controller after the second blur. -/
def scenarioC3 : FormController := (scenarioC2.handleBlur "email").1

/-- Lists are empty before and after mapping alike. -/
lemma isEmpty_map {α β : Type} (f : α → β) (l : List α) :
    (l.map f).isEmpty = l.isEmpty := by
  cases l <;> rfl

/-- Claim C10: in the `Login.jsx` submit handler the outcome is independent of
the password — for a fixed email, any two passwords give the same flag and the
same success or failure — and submission proceeds exactly when the email
contains the at-sign, for any password including the empty string. -/
theorem handleSubmit_password_noninterference (email p q : String) :
    handleSubmit email p = handleSubmit email q ∧
    (handleSubmit email p).proceeded = includes email '@' ∧
    (handleSubmit email p).emailIsInvalid = !(includes email '@') := by
  unfold handleSubmit
  cases h : includes email '@' <;> simp [h]

/-- Claim C2: `handleInputChange` sets `touched` to false for every prior
state and every new value — in particular directly after `handleInputBlur` —
and every event preserves the invariant that a touched field still holds the
value it had at its most recent blur. -/
theorem change_clears_touched_and_invariant :
    (∀ (f : FieldState) (v : String), (f.onChange v).touched = false) ∧
    (∀ (f : FieldState) (v : String), ((f.onBlur).onChange v).touched = false) ∧
    (∀ (t : TrackedField) (e : FieldEvent), t.Inv → (t.step e).Inv) := by
  refine ⟨fun _ _ => rfl, fun _ _ => rfl, ?_⟩
  intro t e _h
  cases e with
  | change v =>
      intro hc
      exact absurd hc (by simp [TrackedField.step, FieldState.onChange])
  | blur =>
      intro _
      rfl

/-- Witness for C2 at a concrete touched state and a concrete change event. -/
theorem change_clears_touched_and_invariant_witness :
    TrackedField.Inv (TrackedField.step
      { fs := { value := "a", touched := true }, lastBlurValue := some "a" }
      (FieldEvent.change "b")) :=
  change_clears_touched_and_invariant.2.2
    { fs := { value := "a", touched := true }, lastBlurValue := some "a" }
    (FieldEvent.change "b") (by intro _; rfl)

/-- Claim C3: the `isInvalid` query computes `touched && rule(value).isInvalid`
without touching the state — the `emailIsInvalid` expression of
`StateLogin.jsx` is an instance of the pattern — and it returns false whenever
`touched` is false, for any rule and any value. -/
theorem isInvalid_pure_query :
    (∀ (d : Bool) (v : String),
        emailIsInvalidState d v =
          FieldState.isInvalid { value := v, touched := d } stateLoginEmailRule) ∧
    (∀ (f : FieldState) (r : ValidationRule),
        f.touched = false → f.isInvalid r = false) := by
  constructor
  · intro d v
    simp [emailIsInvalidState, FieldState.isInvalid, stateLoginEmailRule,
      Bool.and_assoc]
  · intro f r h
    simp [FieldState.isInvalid, h]

/-- Witness for C3 at a concrete untouched state and a concrete rule. -/
theorem isInvalid_pure_query_witness :
    FieldState.isInvalid { value := "x", touched := false } stateLoginEmailRule
      = false :=
  isInvalid_pure_query.2 { value := "x", touched := false } stateLoginEmailRule rfl

/-- Claim C4: email scenario with the contains-at-sign rule and initial value
`""` — after the first blur the error is visible with the message of
`Login.jsx`; typing `"a@b.com"` clears it because touched is reset; a second
blur leaves it hidden because the value is now valid. -/
theorem email_blur_change_blur_scenario :
    scenarioC1.isInvalidField "email" = true ∧
    scenarioC1.messageFor "email" = some "Please enter a valid email address" ∧
    scenarioC2.isInvalidField "email" = false ∧
    scenarioC3.isInvalidField "email" = false := by
  decide

/-- Claim C1: `submit()` evaluates every registered field's rule against its
current value, the touched flag being unconstrained; whenever any field's
value fails its rule the result is a failure carrying that field's message —
in particular for a never-blurred field holding invalid data. -/
theorem submit_fails_on_any_invalid (c : FormController) (e : FieldEntry)
    (he : e ∈ c.fields) (hinv : (e.rule e.state.value).isInvalid = true) :
    ∃ msgs, (c.submit).2 = SubmitResult.failure msgs ∧
      (e.id, (e.rule e.state.value).message) ∈ msgs := by
  have hmem : e ∈ c.invalidEntries := List.mem_filter.mpr ⟨he, hinv⟩
  have hne : c.invalidEntries.isEmpty = false := by
    cases h : c.invalidEntries with
    | nil => rw [h] at hmem; cases hmem
    | cons a l => rfl
  refine ⟨c.invalidEntries.map (fun x => (x.id, (x.rule x.state.value).message)),
    ?_, ?_⟩
  · simp [FormController.submit, hne]
  · exact List.mem_map_of_mem _ hmem

/-- Witness for C1: an untouched password field whose three-character value
fails the minimum-length rule makes `submit` fail with that field's message. -/
theorem submit_fails_on_any_invalid_witness :
    ∃ msgs, (pwCtrl.submit).2 = SubmitResult.failure msgs ∧
      (pwEntry.id, (pwEntry.rule pwEntry.state.value).message) ∈ msgs :=
  submit_fails_on_any_invalid pwCtrl pwEntry (List.Mem.head _) (by decide)

/-- Claim C5: a failing `submit` marks every field touched and changes
nothing else — the resulting fields are exactly the old ones with the touched
flag set, keeping every id, initial value, rule and value. -/
theorem submit_failure_touches_all (c : FormController)
    (msgs : List (String × String))
    (h : (c.submit).2 = SubmitResult.failure msgs) :
    ((c.submit).1).fields = c.fields.map FieldEntry.touchEntry := by
  cases hemp : c.invalidEntries.isEmpty with
  | true => simp [FormController.submit, hemp] at h
  | false => simp [FormController.submit, hemp]

/-- Witness for C5 at the concrete failing password controller. -/
theorem submit_failure_touches_all_witness :
    ((pwCtrl.submit).1).fields = pwCtrl.fields.map FieldEntry.touchEntry :=
  submit_failure_touches_all pwCtrl
    [("password", "Please Enter a Valid Password")] (by decide)

/-- Touching every entry changes no rule, value or id, so the invalid set is
the touched image of the old invalid set. -/
lemma invalidEntries_touch (c : FormController) :
    (FormController.mk (c.fields.map FieldEntry.touchEntry)).invalidEntries =
      c.invalidEntries.map FieldEntry.touchEntry := by
  simp only [FormController.invalidEntries, List.filter_map]
  rfl

/-- Claim C6: `submit()` is idempotent — running it again on the controller it
returned, with no intervening events, yields the identical result. -/
theorem submit_idempotent (c : FormController) :
    (((c.submit).1).submit).2 = (c.submit).2 := by
  cases hemp : c.invalidEntries.isEmpty with
  | true => simp [FormController.submit, hemp]
  | false =>
      have h1 : (c.submit).1 =
          FormController.mk (c.fields.map FieldEntry.touchEntry) := by
        simp [FormController.submit, hemp]
      have h2s : (c.submit).2 = SubmitResult.failure
          (c.invalidEntries.map (fun e => (e.id, (e.rule e.state.value).message))) := by
        simp [FormController.submit, hemp]
      have h2 := invalidEntries_touch c
      have hne : ((FormController.mk
          (c.fields.map FieldEntry.touchEntry)).invalidEntries).isEmpty = false := by
        rw [h2, isEmpty_map]; exact hemp
      rw [h1, h2s]
      simp only [FormController.submit, h2, isEmpty_map, hemp,
        Bool.false_eq_true, if_false, List.map_map]
      rfl

/-- Claim C7: `submit()` never mutates any field's value — the id-to-value
mapping of the controller it returns is the one it was given, whether it
succeeds or fails. -/
theorem submit_preserves_values (c : FormController) :
    ((c.submit).1).fields.map (fun e => (e.id, e.state.value)) =
      c.fields.map (fun e => (e.id, e.state.value)) := by
  cases hemp : c.invalidEntries.isEmpty with
  | true => simp [FormController.submit, hemp]
  | false =>
      simp only [FormController.submit, hemp, Bool.false_eq_true, if_false,
        List.map_map]
      rfl

/-- The entry produced by the scenario registration of the email field. -/
def dupEntry : FieldEntry :=
  { id := "email", initialValue := "", rule := emailRule
    state := { value := "", touched := false } }

/-- Claim C9: registering an identifier that is already present fails with
`DuplicateFieldError` and hands back the controller unchanged — the first
registration and every other field exactly as before the call. -/
theorem registerField_duplicate_unchanged (c : FormController) (id v : String)
    (r : ValidationRule) (e : FieldEntry) (h : c.lookup id = some e) :
    c.registerField id v r = (c, some FormError.duplicateFieldError) := by
  unfold FormController.registerField
  rw [h]

/-- Witness for C9: registering `"email"` a second time on the scenario
controller fails and returns that controller untouched. -/
theorem registerField_duplicate_unchanged_witness :
    scenarioC0.registerField "email" "x" emailRule =
      (scenarioC0, some FormError.duplicateFieldError) :=
  registerField_duplicate_unchanged scenarioC0 "email" "x" emailRule dupEntry rfl

/-- Rebuild a pristine entry from registration data. -/
def ofSkeleton (t : String × String × ValidationRule) : FieldEntry :=
  { id := t.1, initialValue := t.2.1, rule := t.2.2
    state := { value := t.2.1, touched := false } }

/-- Updating the live state of selected entries leaves every registration
skeleton in place. -/
lemma map_skeleton_modify (l : List FieldEntry) (g : FieldState → FieldState)
    (id : String) :
    (l.map (fun e =>
        if e.id == id then { e with state := g e.state } else e)).map
      FieldEntry.skeleton = l.map FieldEntry.skeleton := by
  induction l with
  | nil => rfl
  | cons a l ih =>
      simp only [List.map_cons, ih, List.cons.injEq, and_true]
      by_cases h : (a.id == id) = true
      · simp [h, FieldEntry.skeleton]
      · simp [h, FieldEntry.skeleton]

/-- Change and blur events never alter any registration skeleton. -/
lemma applyEvent_skeleton (c : FormController) (e : FormEvent) :
    (c.applyEvent e).fields.map FieldEntry.skeleton =
      c.fields.map FieldEntry.skeleton := by
  cases e with
  | change id v =>
      simp only [FormController.applyEvent, FormController.handleChange]
      cases h : c.fields.any (fun x => x.id == id) with
      | true =>
          simp only [h, if_true]
          exact map_skeleton_modify c.fields (fun s => s.onChange v) id
      | false => simp [h]
  | blur id =>
      simp only [FormController.applyEvent, FormController.handleBlur]
      cases h : c.fields.any (fun x => x.id == id) with
      | true =>
          simp only [h, if_true]
          exact map_skeleton_modify c.fields FieldState.onBlur id
      | false => simp [h]

/-- Whole event sequences never alter any registration skeleton. -/
lemma applyEvents_skeleton (c : FormController) (es : List FormEvent) :
    (c.applyEvents es).fields.map FieldEntry.skeleton =
      c.fields.map FieldEntry.skeleton := by
  induction es generalizing c with
  | nil => rfl
  | cons e es ih => exact (ih (c.applyEvent e)).trans (applyEvent_skeleton c e)

/-- The reset of a controller is computed from its registration skeletons
alone. -/
lemma reset_fields_by_skeleton (c : FormController) :
    (c.reset).fields = (c.fields.map FieldEntry.skeleton).map ofSkeleton := by
  simp only [FormController.reset, List.map_map]
  rfl

/-- Controllers sharing their registration skeletons reset to the same
controller. -/
lemma reset_eq_of_skeleton {c c' : FormController}
    (h : c.fields.map FieldEntry.skeleton = c'.fields.map FieldEntry.skeleton) :
    c.reset = c'.reset := by
  have h2 : (c.reset).fields = (c'.reset).fields := by
    rw [reset_fields_by_skeleton, reset_fields_by_skeleton, h]
  exact congrArg FormController.mk h2

/-- Registration keeps a controller pristine: if resetting was the identity
before the call, it still is afterwards. -/
lemma registerField_pristine (c : FormController) (id v : String)
    (r : ValidationRule) (h : c.reset = c) :
    ((c.registerField id v r).1).reset = (c.registerField id v r).1 := by
  cases hl : c.lookup id with
  | some e => simp [FormController.registerField, hl, h]
  | none =>
      have hf : c.fields.map (fun e =>
          { e with state := { value := e.initialValue, touched := false } }) =
            c.fields := congrArg FormController.fields h
      simp only [FormController.registerField, hl]
      refine congrArg FormController.mk ?_
      rw [List.map_append, hf]
      rfl

/-- A freshly constructed controller is pristine: resetting it is the
identity. -/
lemma mkController_pristine (l : List (String × String × ValidationRule)) :
    (mkController l).reset = mkController l := by
  suffices h : ∀ c : FormController, c.reset = c →
      (l.foldl (fun c t => (c.registerField t.1 t.2.1 t.2.2).1) c).reset =
        l.foldl (fun c t => (c.registerField t.1 t.2.1 t.2.2).1) c from
    h { fields := [] } rfl
  induction l with
  | nil => exact fun c hc => hc
  | cons t l ih =>
      exact fun c hc => ih _ (registerField_pristine c t.1 t.2.1 t.2.2 hc)

/-- Claim C8: `reset()` restores every field to its registered initial value
with `touched = false`, and after any sequence of change and blur events a
reset followed by `submit()` gives the very result a freshly constructed
controller with the same registrations gives. -/
theorem reset_then_submit_eq_fresh :
    (∀ c : FormController, (c.reset).fields = c.fields.map (fun e =>
        { e with state := { value := e.initialValue, touched := false } })) ∧
    (∀ (l : List (String × String × ValidationRule)) (es : List FormEvent),
        (((mkController l).applyEvents es).reset).submit =
          (mkController l).submit) := by
  constructor
  · intro c
    rfl
  · intro l es
    have h1 : (((mkController l).applyEvents es).reset) = (mkController l).reset :=
      reset_eq_of_skeleton (applyEvents_skeleton (mkController l) es)
    rw [h1, mkController_pristine]

end ReactForms
